import Mathlib

/-!
# fcm: message validation, error classification, backoff retry, XMPP dispatch loop

A shallow embedding of the Go package `fcm` (files `message.go`, `response.go`,
`http.go`, `xmpp.go`) together with theorems about it.

Conventions of the embedding

* A Go `error` interface value is a `GoError`; the nil error is `none` in an
  `Option GoError`.
* A Go pointer that may be nil (`*Message`) is an `Option`.
* Network calls (`httpClient.Do`, `SendOrg`, `Recv`, `xmpp.NewClient`) are
  inputs of the functions that perform them.
* Go channels are FIFO lists; an unbuffered channel is identified by a number.
-/

namespace Fcm

/-! ## Errors -/

/-- A Go `error` value of this package.

* `errorString p s` is the pointer returned by one evaluation of
  `errors.New(s)`; `p` identifies the allocation, since two such values are
  equal in Go exactly when they are the same pointer.
* `connectionError s` and `serverError s` are the two string types of
  `response.go`.
* `foreign` is any error produced outside the package (for instance by
  `encoding/json`); `isNetError` tells whether it implements `net.Error` and
  `temporary`, `timeout` are what its methods return. -/
inductive GoError where
  | errorString (p : Nat) (s : String)
  | connectionError (s : String)
  | serverError (s : String)
  | foreign (isNetError temporary timeout : Bool) (s : String)
deriving DecidableEq, Repr

namespace GoError

/-- The type assertion `err.(net.Error)`: the value has methods `Error`,
`Timeout` and `Temporary`. -/
def isNetError : GoError → Bool
  | errorString _ _ => false
  | connectionError _ => true
  | serverError _ => true
  | foreign n _ _ _ => n

/-- Method `Temporary()` of a value that implements `net.Error`. -/
def Temporary : GoError → Bool
  | errorString _ _ => false
  | connectionError _ => true
  | serverError _ => true
  | foreign _ t _ _ => t

/-- Method `Timeout()` of a value that implements `net.Error`. -/
def Timeout : GoError → Bool
  | errorString _ _ => false
  | connectionError _ => true
  | serverError _ => false
  | foreign _ _ t _ => t

/-- The check of `retry`: `tErr, ok := err.(net.Error); ok && tErr.Temporary()`. -/
def retryable (e : GoError) : Bool :=
  e.isNetError && e.Temporary

end GoError

/-! Package-level error variables, numbered in declaration order
(`message.go`, then `http.go`, then `response.go`). -/

def ErrInvalidMessage : GoError := .errorString 0 "message is invalid"
def ErrInvalidTarget : GoError := .errorString 1 "topic is invalid or registration ids are not set"
def ErrToManyRegIDs : GoError := .errorString 2 "too many registrations ids"
def ErrInvalidTimeToLive : GoError := .errorString 3 "messages time-to-live is invalid"

def ErrInvalidAPIKey : GoError := .errorString 4 "client API Key is invalid"

def ErrMissingRegistration : GoError := .errorString 5 "missing registration token"
def ErrInvalidRegistration : GoError := .errorString 6 "invalid registration token"
def ErrNotRegistered : GoError := .errorString 7 "unregistered device"
def ErrInvalidPackageName : GoError := .errorString 8 "invalid package name"
def ErrMismatchSenderID : GoError := .errorString 9 "mismatched sender id"
def ErrMessageTooBig : GoError := .errorString 10 "message is too big"
def ErrInvalidDataKey : GoError := .errorString 11 "invalid data key"
def ErrInvalidTTL : GoError := .errorString 12 "invalid time to live"
def ErrUnavailable : GoError := .connectionError "timeout"
def ErrInternalServerError : GoError := .serverError "internal server error"
def ErrDeviceMessageRateExceeded : GoError := .errorString 13 "device message rate exceeded"
def ErrTopicsMessageRateExceeded : GoError := .errorString 14 "topics message rate exceeded"

def ErrorInvalidJson : GoError := .errorString 15 "invalid message"
def ErrorBadRegistration : GoError := .errorString 16 "registration is invalid"
def ErrorDeviceUnRegistered : GoError := .errorString 17 "device is unregistered"
def ErrorSenderIdMismatch : GoError := .errorString 18 "sender id mismatch"
def ErrorBadAck : GoError := .errorString 19 "bad ack"
def ErrorServiceUnavaliable : GoError := .errorString 20 "service unavaliable"
def ErrorInternalServerError : GoError := .errorString 21 "internal server error"
def ErrorDeviceMessageRateExceeded : GoError := .errorString 22 "device message exceeded"
def ErrorTopicMessageRateExceeded : GoError := .errorString 23 "topic message exceeded"
def ErrorConnectionDraining : GoError := .errorString 24 "connection drainning"

/-! ## Messages and validation (`message.go`) -/

/-- Constants of `http.go`. -/
def MAX_TTL : Int := 2419200

def MAX_REGISTRATIONID_NUM : Nat := 1000

/-- The struct `Notification`. -/
structure Notification where
  Title : String := ""
  Body : String := ""
  Icon : String := ""
  ClickAction : String := ""
  Color : String := ""
  Sound : String := ""
  Tag : String := ""
  BodyLocKey : String := ""
  BodyLocArgs : String := ""
  TitleLocKey : String := ""
  TitleLocArgs : String := ""
  AndroidChannelID : String := ""
  Badge : String := ""
  Subtitle : String := ""
deriving DecidableEq, Repr

/-- The struct `Message`. The field `Data` (`map[string]interface{}`) is
carried as a list of key/value strings; no function of the package reads it. -/
structure Message where
  To : String := ""
  RegistrationIDs : List String := []
  Condition : String := ""
  CollapseKey : String := ""
  Priority : String := ""
  ContentAvailable : Bool := false
  MutableContent : Bool := false
  TimeToLive : Int := 0
  DeliveryReceiptRequested : Bool := false
  DelayWhileIdle : Bool := false
  RestrictedPackageName : String := ""
  DryRun : Bool := false
  Data : List (String × String) := []
  Notification : Option Notification := none
  MessageId : String := ""
deriving DecidableEq, Repr

/-- Scan of `strings.Count` for a non-empty `substr`: `skip` is the number of
characters still covered by the last match; at a free position a match counts
one and the scan resumes just past it. -/
def countFrom (substr : List Char) : Nat → List Char → Nat
  | _, [] => 0
  | skip + 1, _ :: cs => countFrom substr skip cs
  | 0, c :: cs =>
    if substr.isPrefixOf (c :: cs) then 1 + countFrom substr (substr.length - 1) cs
    else countFrom substr 0 cs

/-- Go's `strings.Count(s, substr)`: the number of non-overlapping instances
of `substr` in `s`, found from left to right; for an empty `substr`, one more
than the number of code points of `s`. Go scans bytes and this scans code
points; for an ASCII `substr` such as "&&" the two scans find the same
instances, since no byte of a multi-byte code point is an ASCII byte. -/
def stringsCount (s substr : String) : Nat :=
  if substr.data = [] then s.data.length + 1 else countFrom substr.data 0 s.data

/-- The variable `opCnt` of `Validate`. -/
def opCnt (msg : Message) : Nat :=
  stringsCount msg.Condition "&&" + stringsCount msg.Condition "||"

/-- Method `(*Message).Validate`. -/
def Message.Validate : Option Message → Option GoError
  | none => some ErrInvalidMessage
  | some msg =>
    if msg.To = "" ∧ (msg.Condition = "" ∨ opCnt msg > 2) ∧ msg.RegistrationIDs.length = 0 then
      some ErrInvalidTarget
    else if msg.RegistrationIDs.length > MAX_REGISTRATIONID_NUM then
      some ErrToManyRegIDs
    else if msg.TimeToLive > MAX_TTL then
      some ErrInvalidTimeToLive
    else
      none

/-! ## Responses and error classification (`response.go`) -/

/-- The struct `Result`; `Error` is `none` for a nil error. -/
structure Result where
  MessageID : String := ""
  RegistrationID : String := ""
  Error : Option GoError := none
deriving DecidableEq, Repr

/-- The struct `Response`. -/
structure Response where
  MulticastID : Int := 0
  Success : Int := 0
  Failure : Int := 0
  CanonicalIDs : Int := 0
  StatusCode : Int := 0
  Results : List Result := []
  RetryAfter : String := ""
deriving DecidableEq, Repr

/-- The twelve entries of the map literal `errMap` that precede the comment
`following xmpp error`, in source order. -/
def errMapHttp : List (String × GoError) :=
  [ ("MissingRegistration", ErrMissingRegistration),
    ("InvalidRegistration", ErrInvalidRegistration),
    ("NotRegistered", ErrNotRegistered),
    ("InvalidPackageName", ErrInvalidPackageName),
    ("MismatchSenderId", ErrMismatchSenderID),
    ("MessageTooBig", ErrMessageTooBig),
    ("InvalidDataKey", ErrInvalidDataKey),
    ("InvalidTtl", ErrInvalidTTL),
    ("Unavailable", ErrUnavailable),
    ("InternalServerError", ErrInternalServerError),
    ("DeviceMessageRateExceeded", ErrDeviceMessageRateExceeded),
    ("TopicsMessageRateExceeded", ErrTopicsMessageRateExceeded) ]

/-- The ten entries of the map literal `errMap` that follow the comment
`following xmpp error`, in source order. -/
def errMapXmpp : List (String × GoError) :=
  [ ("INVALID_JSON", ErrorInvalidJson),
    ("BAD_REGISTRATION", ErrorBadRegistration),
    ("DEVICE_UNREGISTERED", ErrorDeviceUnRegistered),
    ("SENDER_ID_MISMATCH", ErrorSenderIdMismatch),
    ("BAD_ACK", ErrorBadAck),
    ("SERVICE_UNAVAILABLE", ErrorServiceUnavaliable),
    ("INTERNAL_SERVER_ERROR", ErrorInternalServerError),
    ("DEVICE_MESSAGE_RATE_EXCEEDED", ErrorDeviceMessageRateExceeded),
    ("TOPICS_MESSAGE_RATE_EXCEEDED", ErrorTopicMessageRateExceeded),
    ("CONNECTION_DRAINING", ErrorConnectionDraining) ]

/-- The map literal `errMap` as its list of entries. -/
def errMapEntries : List (String × GoError) :=
  errMapHttp ++ errMapXmpp

/-- The keys of `errMap`. -/
def errMapKeys : List String :=
  errMapEntries.map Prod.fst

/-- The lookup `e, ok := errMap[code]`: `some e` when `ok`, `none` otherwise.
The one-result form `errMap[code]` yields the nil error exactly when this is
`none`. -/
def errMap (code : String) : Option GoError :=
  errMapEntries.lookup code

/-- The anonymous struct that `Result.UnmarshalJSON` decodes into. -/
structure resultJSON where
  MessageID : String := ""
  RegistrationID : String := ""
  Error : String := ""
deriving DecidableEq, Repr

/-- Method `(*Result).UnmarshalJSON`. The argument `decoded` is the outcome of
`json.Unmarshal(data, &result)`. Returns the receiver after the call and the
returned error. -/
def Result.UnmarshalJSON (r : Result) (decoded : Except GoError resultJSON) :
    Result × Option GoError :=
  match decoded with
  | .error err => (r, some err)
  | .ok result =>
    ({ MessageID := result.MessageID
       RegistrationID := result.RegistrationID
       Error := match errMap result.Error with
         | some e => some e
         | none => r.Error }, none)

/-- Method `Result.Unregistered`: the `switch r.Error` with its seven case
values. -/
def Result.Unregistered (r : Result) : Bool :=
  match r.Error with
  | none => false
  | some e =>
    decide (e = ErrNotRegistered ∨ e = ErrMismatchSenderID ∨ e = ErrMissingRegistration ∨
      e = ErrInvalidRegistration ∨ e = ErrorBadRegistration ∨ e = ErrorDeviceUnRegistered ∨
      e = ErrorSenderIdMismatch)

/-! ## Backoff retry (`http.go`) -/

/-- Constant `minBackoff = 100 * time.Millisecond`, in nanoseconds. -/
def minBackoff : Nat := 100 * 1000000

/-- Constant `maxBackoff = 1 * time.Minute`, in nanoseconds. -/
def maxBackoff : Nat := 60 * 1000000000

/-- What a run of `retry` did: the returned error, the state the operation
left behind, how many times the operation was invoked and the arguments of
the calls to `time.Sleep`, in order. -/
structure RetryRun (σ : Type) where
  err : Option GoError
  state : σ
  calls : Nat
  slept : List Nat

/-- The `for` loop of `retry`, entered with the local `attempt`; `calls` and
`slept` record the invocations and sleeps made so far. The operation `fn` is a
closure over mutable state `σ`. The counter `attempt` never exceeds 25, so
neither `attempt*attempt` nor the product with `minBackoff` overflows. -/
def retryLoop {σ : Type} (fn : σ → Option GoError × σ) (attempts : Int)
    (attempt : Nat) (st : σ) (calls : Nat) (slept : List Nat) : RetryRun σ :=
  match fn st with
  | (none, st1) => ⟨none, st1, calls + 1, slept⟩
  | (some err, st1) =>
    if err.retryable = false then ⟨some err, st1, calls + 1, slept⟩
    else
      let backoff := minBackoff * ((attempt + 1) * (attempt + 1))
      if h : ((attempt + 1 : Nat) : Int) > attempts ∨ backoff > maxBackoff then
        ⟨some err, st1, calls + 1, slept⟩
      else
        retryLoop fn attempts (attempt + 1) st1 (calls + 1) (slept ++ [backoff])
termination_by 25 - attempt
decreasing_by
  have hb : minBackoff * ((attempt + 1) * (attempt + 1)) ≤ maxBackoff := by
    have := h
    simp only [not_or, not_lt] at this
    exact this.2
  have h24 : attempt + 1 ≤ 24 := by
    by_contra hc
    have h25 : 25 ≤ attempt + 1 := by omega
    have : 25 * 25 ≤ (attempt + 1) * (attempt + 1) := Nat.mul_le_mul h25 h25
    simp only [minBackoff, maxBackoff] at hb
    omega
  omega

/-- Function `retry(fn, attempts)`. -/
def retry {σ : Type} (fn : σ → Option GoError × σ) (attempts : Int) (st : σ) : RetryRun σ :=
  retryLoop fn attempts 0 st 0 []

/-! ## Synchronous client (`http.go`) -/

/-- The struct `HttpClient`; `client` tells whether the field `client` is
non-nil. -/
structure HttpClient where
  apiKey : String
  client : Bool := true
  endpoint : String := "https://fcm.googleapis.com/fcm/send"
  projectId : String := ""
  v1 : Bool := false
deriving DecidableEq, Repr

/-- What `httpClient.Do(req)` hands back on success, as far as `send` reads
it: status code, status line, the `Retry-After` header, and the outcome of
decoding the body into the response under construction. -/
structure HttpReply where
  StatusCode : Int
  Status : String
  RetryAfter : String
  decode : Response → Except GoError Response

/-- The world outside the synchronous client, with a state `σ` that only the
network exchange `Do` can change. `marshal` is `json.Marshal(msg)`,
`newRequest` is the error result of `http.NewRequest`, and `Do` takes the
endpoint, the `Authorization` header and the body; its failure is a message
text. -/
structure HttpWorld (σ : Type) where
  marshal : Option Message → Except GoError String
  newRequest : String → String → Option GoError
  Do : String → String → String → σ → Except String HttpReply × σ

/-- Method `(*HttpClient).send`. -/
def HttpClient.send {σ : Type} (c : HttpClient) (w : HttpWorld σ) (data : String) (st : σ) :
    (Option Response × Option GoError) × σ :=
  match w.newRequest c.endpoint data with
  | some err => ((none, some err), st)
  | none =>
    match w.Do c.endpoint ("key=" ++ c.apiKey) data st with
    | (.error msg, st1) => ((none, some (.connectionError msg)), st1)
    | (.ok resp, st1) =>
      let response : Response := { StatusCode := resp.StatusCode, RetryAfter := resp.RetryAfter }
      if resp.StatusCode ≠ 200 then
        ((some response,
          some (.serverError (toString resp.StatusCode ++ " error: " ++ resp.Status))), st1)
      else
        match resp.decode response with
        | .error err => ((none, some err), st1)
        | .ok decoded => ((some decoded, none), st1)

/-- Method `(*HttpClient).Send`. -/
def HttpClient.Send {σ : Type} (c : HttpClient) (w : HttpWorld σ) (msg : Option Message)
    (st : σ) : (Option Response × Option GoError) × σ :=
  match Message.Validate msg with
  | some err => ((none, some err), st)
  | none =>
    match w.marshal msg with
    | .error err => ((none, some err), st)
    | .ok data => c.send w data st

/-- Method `(*HttpClient).SendWithRetry`. The closure handed to `retry`
captures `resp`, so the state it runs on pairs the network state with the
current value of `resp`. -/
def HttpClient.SendWithRetry {σ : Type} (c : HttpClient) (w : HttpWorld σ)
    (msg : Option Message) (retryAttempts : Int) (st : σ) :
    (Option Response × Option GoError) × σ :=
  match Message.Validate msg with
  | some err => ((none, some err), st)
  | none =>
    match w.marshal msg with
    | .error err => ((none, some err), st)
    | .ok data =>
      let run := retry
        (fun (p : σ × Option Response) =>
          let r := c.send w data p.1
          (r.1.2, (r.2, r.1.1)))
        retryAttempts (st, some {})
      ((run.state.2, run.err), run.state.1)

/-! ## Asynchronous client (`xmpp.go`) -/

def productionEndpoint : String := "fcm-xmpp.googleapis.com:5235"

def testingEndpoint : String := "fcm-xmpp.googleapis.com:5236"

def cmdTypeSend : Int := 0

def cmdTypeRenew : Int := 1

def cmdTypeClose : Int := 2

/-- Constant `defaultTimeout = time.Second * 15`, in nanoseconds. -/
def defaultTimeout : Nat := 15 * 1000000000

/-- The struct `sendInfo`. The unbuffered channel `ret` is identified by a
number: two channels are the same channel exactly when the numbers agree. -/
structure sendInfo where
  ret : Nat
  msg : Option Message
deriving DecidableEq, Repr

/-- The struct `cmd`; the field `d` of type `interface{}` holds either nil or
a `*sendInfo`. -/
structure cmd where
  t : Int
  d : Option sendInfo := none
deriving DecidableEq, Repr

/-- The struct `xmppResponse`. -/
structure xmppResponse where
  MessageType : String := ""
  MessageId : String := ""
  Form : String := ""
  Error : String := ""
  ErrorDescription : String := ""
deriving DecidableEq, Repr

/-- The struct `XmppClient`. The connection `client` is identified by a
number. The channel `cmds` is the list of commands sent on it and not yet
received, oldest first. The map `retInfo` is its lookup function. -/
structure XmppClient where
  user : String
  passwd : String
  debug : Bool
  client : Nat
  cmds : List cmd
  retInfo : String → Option sendInfo

/-- A value returned by `c.client.Recv()`: an `xmpp.Chat` with its field
`Other`, an `xmpp.Presence`, an `xmpp.IQ`, or anything else (nil included). -/
inductive Stanza where
  | Chat (Other : List String)
  | Presence
  | IQ
  | other
deriving DecidableEq, Repr

/-- The world outside the asynchronous client, as one pass of the dispatch
loop meets it.

* `newClient host user passwd debug` is the result of `xmpp.NewClient`.
* `marshal` is the data result of `json.Marshal(si.msg)`.
* `sendOrg conn frame` is the error result of `c.client.SendOrg(frame)`.
* `recv conn` is the result pair of `c.client.Recv()`.
* `unmarshal payload` is the `xmppResponse` left behind by
  `json.Unmarshal([]byte(payload), xmppResp)` on a fresh `xmppResponse`.
* `receiving ch` tells whether some goroutine is ready to receive on the
  unbuffered channel `ch`. -/
structure XmppWorld where
  newClient : String → String → String → Bool → Except GoError Nat
  marshal : Option Message → String
  sendOrg : Nat → String → Option GoError
  recv : Nat → Stanza × Option GoError
  unmarshal : String → xmppResponse
  receiving : Nat → Bool

/-- Simple case folding of one code point, as far as it can meet a lowercase
ASCII letter: ASCII upper case, the Kelvin sign and the long s. -/
def foldRune (r : Char) : Char :=
  if r = Char.ofNat 0x212A then 'k'
  else if r = Char.ofNat 0x17F then 's'
  else r.toLower

/-- Go's `strings.EqualFold(s, t)`, exact whenever one argument consists of
ASCII letters only (the one call in the package passes "ack"). -/
def stringsEqualFold (s t : String) : Bool :=
  s.data.map foldRune = t.data.map foldRune

/-- Method `(*XmppClient).renewConn`: the receiver after the call and the
returned error. -/
def XmppClient.renewConn (c : XmppClient) (w : XmppWorld) : XmppClient × Option GoError :=
  let host := if c.debug then testingEndpoint else productionEndpoint
  match w.newClient host c.user c.passwd c.debug with
  | .error err => (c, some err)
  | .ok client => ({ c with client := client }, none)

/-- The statement `c.cmds <- x`, taken at the moment the command joins the
queue. -/
def XmppClient.enqueue (c : XmppClient) (x : cmd) : XmppClient :=
  { c with cmds := c.cmds ++ [x] }

/-- Method `(*XmppClient).send`: the receiver after the call and the returned
error, or `none` when the call panics (field access through a nil `si.msg`). -/
def XmppClient.send (c : XmppClient) (w : XmppWorld) (si : sendInfo) :
    Option (XmppClient × Option GoError) :=
  let data := w.marshal si.msg
  let xmppDataStr :=
    "<message id=\"\">\n\t\t\t<gcm xmlns=\"google:mobile:data\">\n\t\t\t\t" ++ data ++
      "\n\t\t\t</gcm>\n\t\t</message>"
  match w.sendOrg c.client xmppDataStr with
  | none => some (c, none)
  | some err =>
    match si.msg with
    | none => none
    | some m =>
      some ({ c with retInfo := fun k => if k = m.MessageId then some si else c.retInfo k },
        some err)

/-- How one pass of the `for` loop of `run` ends.

* `next c delivered spawned`: the pass completed; `delivered` is the channel
  and response of a completed `si.ret <- response`, `spawned` lists the
  commands that goroutines started in this pass will send on `c.cmds`.
* `returned c`: the loop goroutine returned (`cmdTypeClose`).
* `panicked c`: a run-time panic ended the loop goroutine (the deferred
  function recovers and logs it).
* `blocked c ch response`: the pass is stuck in `si.ret <- response` on the
  channel `ch`, on which nobody receives. -/
inductive LoopStep where
  | next (c : XmppClient) (delivered : Option (Nat × Response)) (spawned : List cmd)
  | returned (c : XmppClient)
  | panicked (c : XmppClient)
  | blocked (c : XmppClient) (ch : Nat) (response : Response)

/-- The `default` branch of the `select` in `run`, after `Recv` has returned
`chat`. -/
def XmppClient.onStanza (c : XmppClient) (w : XmppWorld) (chat : Stanza) : LoopStep :=
  match chat with
  | .Chat (payload :: _) =>
    let xmppResp := w.unmarshal payload
    let response : Response :=
      if stringsEqualFold xmppResp.MessageType "ack" then { StatusCode := 200 } else {}
    let response : Response :=
      { response with
        Results := response.Results ++
          [{ MessageID := xmppResp.MessageId
             RegistrationID := xmppResp.Form
             Error := errMap xmppResp.Error }] }
    let spawned : List cmd :=
      if errMap xmppResp.Error = some ErrorConnectionDraining then [{ t := cmdTypeRenew }]
      else []
    match c.retInfo xmppResp.MessageId with
    | some si =>
      if w.receiving si.ret then .next c (some (si.ret, response)) spawned
      else .blocked c si.ret response
    | none => .next c none spawned
  | _ => .next c none []

/-- One pass of the `for` loop of `run`: the `select` takes a queued command
when there is one and otherwise reads from the connection. -/
def XmppClient.runOnce (c : XmppClient) (w : XmppWorld) : LoopStep :=
  match c.cmds with
  | x :: rest =>
    let c1 := { c with cmds := rest }
    if x.t = cmdTypeSend then
      match x.d with
      | none => .panicked c1
      | some si =>
        match c1.send w si with
        | none => .panicked c1
        | some r => .next r.1 none []
    else if x.t = cmdTypeRenew then .next (c1.renewConn w).1 none []
    else if x.t = cmdTypeClose then .returned c1
    else .next c1 none []
  | [] => c.onStanza w (w.recv c.client).1

/-- Method `(*XmppClient).Send`, first part: up to and including
`c.cmds <- si`, with `ret` the channel made for this call. -/
def XmppClient.SendEnqueue (c : XmppClient) (msg : Option Message) (ret : Nat) : XmppClient :=
  c.enqueue { t := cmdTypeSend, d := some { ret := ret, msg := msg } }

/-- The local `to` of `Send`. -/
def sendTimeout (timeout : List Nat) : Nat :=
  match timeout with
  | [] => defaultTimeout
  | t :: _ => t

/-- How the `select` of `Send` ends when the timer was set to `after`
nanoseconds (the local `to`): the timer fires first, or a response arrives
first on `sendInfo.ret`. -/
inductive SelectCase (after : Nat) where
  | timeout
  | received (resp : Response)
deriving DecidableEq, Repr

/-- Method `(*XmppClient).Send`, second part: from the `select` to the
return, with `timeout` the variadic argument of the call. The result is the returned pair and the receiver after the call, or
`none` when the call panics (field access through a nil `msg`). -/
def XmppClient.SendSelect (c : XmppClient) (msg : Option Message) (timeout : List Nat)
    (ev : SelectCase (sendTimeout timeout)) :
    Option ((Response × Option GoError) × XmppClient) :=
  match msg with
  | none => none
  | some m =>
    let resp : Response :=
      match ev with
      | .timeout =>
        { StatusCode := 503
          Results := [{ MessageID := m.MessageId
                        RegistrationID := m.To
                        Error := some ErrorServiceUnavaliable }] }
      | .received r => r
    some ((resp, none), { c with retInfo := fun k => if k = m.MessageId then none else c.retInfo k })

/-- Method `(*XmppClient).AsyncSend`, with `ret` the channel made for this
call: the returned error and the receiver after the call. -/
def XmppClient.AsyncSend (c : XmppClient) (msg : Option Message) (ret : Nat) :
    Option GoError × XmppClient :=
  (none, c.enqueue { t := cmdTypeSend, d := some { ret := ret, msg := msg } })

/-- Method `(*XmppClient).Send` as a whole, with `ret` the channel made for
this call: the command is queued, other goroutines (the dispatch loop, other
callers) change the client as `meanwhile` describes while the call waits in
its `select`, and the `select` ends as `ev` says. -/
def XmppClient.Send (c : XmppClient) (msg : Option Message) (timeout : List Nat) (ret : Nat)
    (meanwhile : XmppClient → XmppClient) (ev : SelectCase (sendTimeout timeout)) :
    Option ((Response × Option GoError) × XmppClient) :=
  (meanwhile (c.SendEnqueue msg ret)).SendSelect msg timeout ev

/-- Function `NewXmppClient`, up to the start of the loop goroutine. -/
def NewXmppClient (w : XmppWorld) (user passwd : String) (debug : Bool) :
    Except GoError XmppClient :=
  let c : XmppClient :=
    { user := user, passwd := passwd, debug := debug, client := 0, cmds := [],
      retInfo := fun _ => none }
  match c.renewConn w with
  | (_, some err) => .error err
  | (c1, none) => .ok c1

/-! ## Vocabulary of the statements about `retry` -/

/-- The state that `k` successive invocations of the operation `fn` leave
behind, starting from `st`. -/
def stateAfter {σ : Type} (fn : σ → Option GoError × σ) (st : σ) : Nat → σ
  | 0 => st
  | k + 1 => (fn (stateAfter fn st k)).2

/-- The error returned by invocation number `k + 1` of the operation `fn`,
starting from `st`. -/
def resultOf {σ : Type} (fn : σ → Option GoError × σ) (st : σ) (k : Nat) : Option GoError :=
  (fn (stateAfter fn st k)).1

/-- The sum over `k = 1..n` of `minBackoff * k^2`. -/
def cumulativeBackoff : Nat → Nat
  | 0 => 0
  | n + 1 => cumulativeBackoff n + minBackoff * ((n + 1) * (n + 1))

/-- The delays `minBackoff * k^2` for `k = a+1 .. a+n`, in order. -/
def backoffs (a n : Nat) : List Nat :=
  (List.range n).map (fun k => minBackoff * ((a + k + 1) * (a + k + 1)))

/-! ## Sample inputs -/

/-- An operation over a call counter that fails with a connection error on
its first two invocations and succeeds from the third on. -/
def flakyTwice (k : Nat) : Option GoError × Nat :=
  if k < 2 then (some (.connectionError "connection reset"), k + 1) else (none, k + 1)

/-- An operation over a call counter that fails with a server error on every
invocation. -/
def alwaysDown (k : Nat) : Option GoError × Nat :=
  (some (.serverError "503 error: Service Unavailable"), k + 1)

/-- The codes whose errors `Result.Unregistered` tests for. -/
def unregisteredCodes : List String :=
  ["NotRegistered", "MismatchSenderId", "MissingRegistration", "InvalidRegistration",
   "BAD_REGISTRATION", "DEVICE_UNREGISTERED", "SENDER_ID_MISMATCH"]

/-- The rate-exceeded codes of both vocabularies. -/
def rateExceededCodes : List String :=
  ["DeviceMessageRateExceeded", "TopicsMessageRateExceeded",
   "DEVICE_MESSAGE_RATE_EXCEEDED", "TOPICS_MESSAGE_RATE_EXCEEDED"]

/-- The service-unavailable codes of both vocabularies. -/
def serviceUnavailableCodes : List String :=
  ["Unavailable", "SERVICE_UNAVAILABLE"]

/-- The invalid-registration and mismatched-sender codes of both
vocabularies. -/
def permanentCodes : List String :=
  ["InvalidRegistration", "BAD_REGISTRATION", "MismatchSenderId", "SENDER_ID_MISMATCH"]

/-! ## Reading the outcome of a pass of the dispatch loop -/

/-- The client a pass of the loop leaves behind. -/
def LoopStep.client : LoopStep → XmppClient
  | .next c _ _ => c
  | .returned c => c
  | .panicked c => c
  | .blocked c _ _ => c

/-- The completed delivery of a pass, if any. -/
def LoopStep.delivered : LoopStep → Option (Nat × Response)
  | .next _ d _ => d
  | _ => none

/-- The commands that goroutines started by a pass will send on `c.cmds`. -/
def LoopStep.spawned : LoopStep → List cmd
  | .next _ _ s => s
  | _ => []

/-- Whether the pass ran to its end, so that the loop starts another pass. -/
def LoopStep.completed : LoopStep → Bool
  | .next _ _ _ => true
  | _ => false

/-- Whether the pass is stuck sending on a channel without receiver. -/
def LoopStep.isBlocked : LoopStep → Bool
  | .blocked _ _ _ => true
  | _ => false

/-- A message for one device, with identifier "m1". -/
def msgM1 : Message := { To := "device-token", MessageId := "m1" }

/-- A message without `To`, registration ids or condition. -/
def msgNoTarget : Message := { MessageId := "m2" }

/-- A client as `NewXmppClient` returns it: connected (connection 1), nothing
queued, nothing pending. -/
def freshClient : XmppClient :=
  { user := "sender@gcm.googleapis.com", passwd := "key", debug := false, client := 1,
    cmds := [], retInfo := fun _ => none }

/-- A world in which every write succeeds, the next stanza read is an ack for
"m1" without error, and a caller of `Send` is receiving on channel 7. -/
def worldAck : XmppWorld :=
  { newClient := fun _ _ _ _ => .ok 2
    marshal := fun _ => "message-json"
    sendOrg := fun _ _ => none
    recv := fun _ => (.Chat ["ack-m1"], none)
    unmarshal := fun _ => { MessageType := "ack", MessageId := "m1", Form := "device-token" }
    receiving := fun ch => ch == 7 }

/-- The client after `Send(msgM1)` has queued its command, with channel 7. -/
def ackC1 : XmppClient := freshClient.SendEnqueue (some msgM1) 7

/-- The client after the loop has processed that command in `worldAck`. -/
def ackC2 : XmppClient := (ackC1.runOnce worldAck).client

/-- A world in which every write fails, the next stanza read carries the
identifier "m1" and the error code CONNECTION_DRAINING, and nobody receives on
any channel. -/
def worldDrain : XmppWorld :=
  { newClient := fun _ _ _ _ => .ok 2
    marshal := fun _ => "message-json"
    sendOrg := fun _ _ => some (.foreign false false false "write: broken pipe")
    recv := fun _ => (.Chat ["draining"], none)
    unmarshal := fun _ =>
      { MessageType := "nack", MessageId := "m1", Error := "CONNECTION_DRAINING" }
    receiving := fun _ => false }

/-- The client after `AsyncSend(msgM1)` has queued its command, with channel
7, on which nobody ever receives. -/
def drainC1 : XmppClient := (freshClient.AsyncSend (some msgM1) 7).2

/-- The client after the loop has processed that command in `worldDrain`. -/
def drainC2 : XmppClient := (drainC1.runOnce worldDrain).client

/-- A world in which the next stanza read carries the error code
CONNECTION_DRAINING for an identifier nobody waits for, and connecting yields
connection 2. -/
def worldReconnect : XmppWorld :=
  { newClient := fun _ _ _ _ => .ok 2
    marshal := fun _ => "message-json"
    sendOrg := fun _ _ => none
    recv := fun _ => (.Chat ["draining"], none)
    unmarshal := fun _ => { MessageType := "nack", Error := "CONNECTION_DRAINING" }
    receiving := fun _ => false }

/-- A client with a reconnect command at the head of its queue and a send
command behind it. -/
def queuedClient : XmppClient :=
  { freshClient with
    cmds := [{ t := cmdTypeRenew }, { t := cmdTypeSend, d := some { ret := 9, msg := some msgM1 } }] }

/-- A world in which connecting yields connection 1. -/
def worldConnect : XmppWorld :=
  { newClient := fun _ _ _ _ => .ok 1
    marshal := fun _ => "message-json"
    sendOrg := fun _ _ => none
    recv := fun _ => (.other, none)
    unmarshal := fun _ => {}
    receiving := fun _ => false }

/-! ## Theorems -/

theorem retryLoop_nil {σ : Type} (fn : σ → Option GoError × σ) (attempts : Int)
    (attempt : Nat) (st : σ) (calls : Nat) (slept : List Nat) (h : (fn st).1 = none) :
    retryLoop fn attempts attempt st calls slept = ⟨none, (fn st).2, calls + 1, slept⟩ := by
  rw [retryLoop]
  rcases hfn : fn st with ⟨r, st1⟩
  rw [hfn] at h
  simp only at h
  subst h
  rfl

theorem retryLoop_fatal {σ : Type} (fn : σ → Option GoError × σ) (attempts : Int)
    (attempt : Nat) (st : σ) (calls : Nat) (slept : List Nat) (e : GoError)
    (h : (fn st).1 = some e) (he : e.retryable = false) :
    retryLoop fn attempts attempt st calls slept = ⟨some e, (fn st).2, calls + 1, slept⟩ := by
  rw [retryLoop]
  rcases hfn : fn st with ⟨r, st1⟩
  rw [hfn] at h
  simp only at h
  subst h
  simp [he]

theorem retryLoop_giveUp {σ : Type} (fn : σ → Option GoError × σ) (attempts : Int)
    (attempt : Nat) (st : σ) (calls : Nat) (slept : List Nat) (e : GoError)
    (h : (fn st).1 = some e) (he : e.retryable = true)
    (hstop : ((attempt + 1 : Nat) : Int) > attempts ∨
      minBackoff * ((attempt + 1) * (attempt + 1)) > maxBackoff) :
    retryLoop fn attempts attempt st calls slept = ⟨some e, (fn st).2, calls + 1, slept⟩ := by
  rw [retryLoop]
  rcases hfn : fn st with ⟨r, st1⟩
  rw [hfn] at h
  simp only at h
  subst h
  simp only [he, Bool.true_eq_false, if_false]
  rw [dif_pos hstop]

theorem retryLoop_again {σ : Type} (fn : σ → Option GoError × σ) (attempts : Int)
    (attempt : Nat) (st : σ) (calls : Nat) (slept : List Nat) (e : GoError)
    (h : (fn st).1 = some e) (he : e.retryable = true)
    (hgo : ¬ (((attempt + 1 : Nat) : Int) > attempts ∨
      minBackoff * ((attempt + 1) * (attempt + 1)) > maxBackoff)) :
    retryLoop fn attempts attempt st calls slept =
      retryLoop fn attempts (attempt + 1) (fn st).2 (calls + 1)
        (slept ++ [minBackoff * ((attempt + 1) * (attempt + 1))]) := by
  rw [retryLoop]
  rcases hfn : fn st with ⟨r, st1⟩
  rw [hfn] at h
  simp only at h
  subst h
  simp only [he, Bool.true_eq_false, if_false]
  rw [dif_neg hgo]

theorem backoff_le_of_le {x : Nat} (h : x ≤ 24) : minBackoff * (x * x) ≤ maxBackoff := by
  have h2 : x * x ≤ 24 * 24 := Nat.mul_le_mul h h
  simp only [minBackoff, maxBackoff]
  omega

theorem backoff_gt_of_ge {x : Nat} (h : 25 ≤ x) : minBackoff * (x * x) > maxBackoff := by
  have h2 : 25 * 25 ≤ x * x := Nat.mul_le_mul h h
  simp only [minBackoff, maxBackoff]
  omega

theorem backoffs_succ (a n : Nat) :
    backoffs a (n + 1) = backoffs a n ++ [minBackoff * ((a + n + 1) * (a + n + 1))] := by
  simp [backoffs, List.range_succ]

/-- While the operation keeps failing with a retryable error, the attempt
counter stays within `attempts` and below 25, the loop goes round. -/
theorem retryLoop_run {σ : Type} (fn : σ → Option GoError × σ) (attempts : Int) (st : σ)
    (a n : Nat) (calls : Nat) (slept : List Nat)
    (hfail : ∀ k, k < n → ∃ e, resultOf fn st k = some e ∧ e.retryable = true)
    (hatt : n = 0 ∨ ((a + n : Nat) : Int) ≤ attempts) (hcap : a + n ≤ 24) :
    retryLoop fn attempts a (stateAfter fn st 0) calls slept =
      retryLoop fn attempts (a + n) (stateAfter fn st n) (calls + n) (slept ++ backoffs a n) := by
  induction n with
  | zero => simp [backoffs]
  | succ n ih =>
    have hatt1 : ((a + (n + 1) : Nat) : Int) ≤ attempts := by
      rcases hatt with h | h
      · omega
      · exact h
    have ih1 := ih (fun k hk => hfail k (by omega))
      (Or.inr (by push_cast at hatt1 ⊢; omega)) (by omega)
    rw [ih1]
    obtain ⟨e, he, hr⟩ := hfail n (by omega)
    have hgo : ¬ (((a + n + 1 : Nat) : Int) > attempts ∨
        minBackoff * ((a + n + 1) * (a + n + 1)) > maxBackoff) := by
      have hb := backoff_le_of_le (x := a + n + 1) (by omega)
      have hatt2 : ((a + n + 1 : Nat) : Int) ≤ attempts := hatt1
      intro hc
      rcases hc with hc | hc
      · omega
      · omega
    rw [retryLoop_again fn attempts (a + n) (stateAfter fn st n) (calls + n)
      (slept ++ backoffs a n) e he hr hgo]
    rw [backoffs_succ, List.append_assoc]
    rfl

theorem le_24_of_cumulativeBackoff_le {N : Nat} (h : cumulativeBackoff N ≤ maxBackoff) :
    N ≤ 24 := by
  cases N with
  | zero => omega
  | succ n =>
    by_contra hc
    have hgt := backoff_gt_of_ge (x := n + 1) (by omega)
    simp only [cumulativeBackoff] at h
    omega

/-- C3. If the first `N` invocations of the operation each return a retryable
error, invocation `N + 1` returns nil or a non-retryable error, `N` is at most
`attempts` and the sum of `minBackoff * k^2` over `k = 1..N` is within
`maxBackoff`, then `retry` invokes the operation exactly `N + 1` times and
returns what invocation `N + 1` returned, having slept `minBackoff * k^2`
after failure `k`. For `N = 0` this is the case of a first attempt that ends
the call after one invocation. -/
theorem retry_returns_after_failures {σ : Type} (fn : σ → Option GoError × σ)
    (attempts : Int) (st : σ) (N : Nat)
    (hN : (N : Int) ≤ attempts)
    (hcum : cumulativeBackoff N ≤ maxBackoff)
    (hfail : ∀ k, k < N → ∃ e, resultOf fn st k = some e ∧ e.retryable = true)
    (hlast : resultOf fn st N = none ∨
      ∃ e, resultOf fn st N = some e ∧ e.retryable = false) :
    (retry fn attempts st).calls = N + 1 ∧
    (retry fn attempts st).err = resultOf fn st N ∧
    (retry fn attempts st).state = stateAfter fn st (N + 1) ∧
    (retry fn attempts st).slept = backoffs 0 N := by
  have h24 := le_24_of_cumulativeBackoff_le hcum
  have hrun := retryLoop_run fn attempts st 0 N 0 [] hfail
    (Or.inr (by push_cast; omega)) (by omega)
  have hretry : retry fn attempts st =
      retryLoop fn attempts (0 + N) (stateAfter fn st N) (0 + N) ([] ++ backoffs 0 N) := by
    rw [← hrun]
    rfl
  rcases hlast with h | ⟨e, h, he⟩
  · rw [hretry, retryLoop_nil fn attempts _ _ _ _ h]
    simp [resultOf, stateAfter, h] at h ⊢
    exact h.symm
  · rw [hretry, retryLoop_fatal fn attempts _ _ _ _ e h he]
    simp [resultOf, stateAfter, h] at h ⊢
    exact h.symm

/-- Witness for C3: two connection errors, then success, with three attempts
allowed. -/
theorem retry_returns_after_failures_witness :
    ((2 : Nat) : Int) ≤ 3 ∧ cumulativeBackoff 2 ≤ maxBackoff ∧
    (retry flakyTwice 3 0).calls = 3 ∧ (retry flakyTwice 3 0).err = none ∧
    (retry flakyTwice 3 0).slept = [100000000, 400000000] := by
  have h := retry_returns_after_failures flakyTwice 3 0 2 (by decide) (by decide)
    (by
      intro k hk
      interval_cases k
      · exact ⟨_, rfl, rfl⟩
      · exact ⟨_, rfl, rfl⟩)
    (Or.inl rfl)
  refine ⟨by decide, by decide, h.1, ?_, ?_⟩
  · rw [h.2.1]; rfl
  · rw [h.2.2.2]; decide

/-- C4. For an operation that fails with a retryable error on every
invocation and any integer `attempts`, `retry` returns, after exactly
`min (max attempts 0) 24 + 1` invocations (never more than 25), the error of
its last invocation; it slept `minBackoff * n^2` after failed attempt `n` for
each attempt but the last, no sleep exceeds `maxBackoff`, and the last attempt
is the first `n` with `n > attempts` or `minBackoff * n^2 > maxBackoff`. -/
theorem retry_always_failing {σ : Type} (fn : σ → Option GoError × σ) (attempts : Int)
    (st : σ)
    (hfail : ∀ k, ∃ e, resultOf fn st k = some e ∧ e.retryable = true) :
    (retry fn attempts st).calls = (min (max attempts 0) 24).toNat + 1 ∧
    (retry fn attempts st).calls ≤ 25 ∧
    (retry fn attempts st).err = resultOf fn st ((retry fn attempts st).calls - 1) ∧
    (∃ e, (retry fn attempts st).err = some e) ∧
    (retry fn attempts st).state = stateAfter fn st (retry fn attempts st).calls ∧
    (retry fn attempts st).slept =
      (List.range ((retry fn attempts st).calls - 1)).map
        (fun k => minBackoff * ((k + 1) * (k + 1))) ∧
    (∀ d ∈ (retry fn attempts st).slept, d ≤ maxBackoff) ∧
    (((retry fn attempts st).calls : Int) > attempts ∨
      minBackoff * ((retry fn attempts st).calls * (retry fn attempts st).calls) > maxBackoff) ∧
    (∀ n : Nat, 1 ≤ n → n < (retry fn attempts st).calls →
      ¬ ((n : Int) > attempts ∨ minBackoff * (n * n) > maxBackoff)) := by
  obtain ⟨n, hn⟩ : ∃ n : Nat, n = (min (max attempts 0) 24).toNat := ⟨_, rfl⟩
  have hn24 : n ≤ 24 := by omega
  have hrun := retryLoop_run fn attempts st 0 n 0 [] (fun k _ => hfail k)
    (by omega) (by omega)
  obtain ⟨e, he, hr⟩ := hfail n
  have hstop : ((n + 1 : Nat) : Int) > attempts ∨
      minBackoff * ((n + 1) * (n + 1)) > maxBackoff := by
    by_cases h : n = 24
    · right
      exact backoff_gt_of_ge (by omega)
    · left
      omega
  have hretry : retry fn attempts st =
      ⟨some e, stateAfter fn st (n + 1), n + 1, backoffs 0 n⟩ := by
    have h1 : retry fn attempts st = retryLoop fn attempts 0 (stateAfter fn st 0) 0 [] := rfl
    rw [h1, hrun]
    simp only [Nat.zero_add, List.nil_append]
    rw [retryLoop_giveUp fn attempts _ _ _ _ e he hr hstop]
    rfl
  rw [hretry, ← hn]
  refine ⟨rfl, by simp only; omega, by simpa using he.symm, ⟨e, rfl⟩, rfl, ?_, ?_, ?_, ?_⟩
  · simp [backoffs]
  · intro d hd
    simp only [backoffs, List.mem_map, List.mem_range] at hd
    obtain ⟨k, hk, rfl⟩ := hd
    have := backoff_le_of_le (x := 0 + k + 1) (by omega)
    exact this
  · simpa using hstop
  · intro m hm1 hm2 hc
    simp only at hm2
    have hb := backoff_le_of_le (x := m) (by omega)
    rcases hc with hc | hc
    · omega
    · omega

/-- Witness for C4: a server that answers 503 forever, with three attempts
allowed, is called four times. -/
theorem retry_always_failing_witness :
    (retry alwaysDown 3 0).calls = 4 ∧
    (retry alwaysDown 3 0).slept = [100000000, 400000000, 900000000] := by
  have h := retry_always_failing alwaysDown 3 0 (fun k => ⟨_, rfl, rfl⟩)
  refine ⟨by rw [h.1]; decide, ?_⟩
  rw [h.2.2.2.2.2.1, h.1]
  decide

/-- C1. `Validate` returns the first failing check in the order nil message,
no usable target, too many registration ids, time-to-live too long, and nil
only when none fails; it accepts exactly the non-nil messages that have `To`
set, or registration ids, or a condition with at most two boolean operators
(non-overlapping `&&` plus non-overlapping `||`), and that have at most 1000
registration ids and a time-to-live of at most 2419200. -/
theorem Validate_spec :
    Message.Validate none = some ErrInvalidMessage ∧
    (∀ msg : Message, Message.Validate (some msg) =
      if msg.To = "" ∧ msg.RegistrationIDs = [] ∧
          (msg.Condition = "" ∨
            stringsCount msg.Condition "&&" + stringsCount msg.Condition "||" > 2) then
        some ErrInvalidTarget
      else if msg.RegistrationIDs.length > 1000 then some ErrToManyRegIDs
      else if msg.TimeToLive > 2419200 then some ErrInvalidTimeToLive
      else none) ∧
    (∀ m : Option Message, Message.Validate m = none ↔
      ∃ msg, m = some msg ∧
        (msg.To ≠ "" ∨ msg.RegistrationIDs ≠ [] ∨
          (msg.Condition ≠ "" ∧
            stringsCount msg.Condition "&&" + stringsCount msg.Condition "||" ≤ 2)) ∧
        msg.RegistrationIDs.length ≤ 1000 ∧ msg.TimeToLive ≤ 2419200) := by
  refine ⟨rfl, ?_, ?_⟩
  · intro msg
    simp only [Message.Validate, opCnt, MAX_REGISTRATIONID_NUM, MAX_TTL, List.length_eq_zero]
    by_cases h1 : msg.To = "" ∧ (msg.Condition = "" ∨
        stringsCount msg.Condition "&&" + stringsCount msg.Condition "||" > 2) ∧
        msg.RegistrationIDs = []
    · have h2 : msg.To = "" ∧ msg.RegistrationIDs = [] ∧ (msg.Condition = "" ∨
          stringsCount msg.Condition "&&" + stringsCount msg.Condition "||" > 2) :=
        ⟨h1.1, h1.2.2, h1.2.1⟩
      simp only [if_pos h1, if_pos h2]
    · have h2 : ¬ (msg.To = "" ∧ msg.RegistrationIDs = [] ∧ (msg.Condition = "" ∨
          stringsCount msg.Condition "&&" + stringsCount msg.Condition "||" > 2)) :=
        fun h => h1 ⟨h.1, h.2.2, h.2.1⟩
      simp only [if_neg h1, if_neg h2]
  · intro m
    cases m with
    | none => simp [Message.Validate]
    | some msg =>
      simp only [Message.Validate, opCnt, MAX_REGISTRATIONID_NUM, MAX_TTL,
        List.length_eq_zero, Option.some.injEq, exists_eq_left']
      by_cases h1 : msg.To = "" ∧ (msg.Condition = "" ∨
          stringsCount msg.Condition "&&" + stringsCount msg.Condition "||" > 2) ∧
          msg.RegistrationIDs = []
      · rw [if_pos h1]
        simp only [reduceCtorEq, false_iff, not_and, not_le]
        intro h
        exfalso
        rcases h with h | h | h
        · exact h h1.1
        · exact h h1.2.2
        · rcases h1.2.1 with h2 | h2
          · exact h.1 h2
          · omega
      · rw [if_neg h1]
        by_cases h2 : msg.RegistrationIDs.length > 1000
        · rw [if_pos h2]
          simp only [reduceCtorEq, false_iff, not_and, not_le]
          intro _ h3
          omega
        · rw [if_neg h2]
          by_cases h3 : msg.TimeToLive > 2419200
          · rw [if_pos h3]
            simp only [reduceCtorEq, false_iff, not_and, not_le]
            intro _ _
            exact h3
          · rw [if_neg h3]
            simp only [true_iff]
            refine ⟨?_, by omega, by omega⟩
            by_contra hc
            apply h1
            simp only [not_or, not_and, not_le, ne_eq, not_not] at hc
            refine ⟨hc.1, ?_, hc.2.1⟩
            by_cases h4 : msg.Condition = ""
            · exact Or.inl h4
            · exact Or.inr (hc.2.2 h4)

theorem lookup_eq_none_of_not_mem (l : List (String × GoError)) (code : String)
    (h : code ∉ l.map Prod.fst) : l.lookup code = none := by
  induction l with
  | nil => rfl
  | cons p l ih =>
    obtain ⟨k, v⟩ := p
    simp only [List.map_cons, List.mem_cons, not_or] at h
    have hk : (code == k) = false := beq_eq_false_iff_ne.mpr h.1
    simp only [List.lookup, hk]
    exact ih h.2

/-- The classifier finds nothing for a code that is not a key of `errMap`. -/
theorem errMap_eq_none_of_not_mem (code : String) (h : code ∉ errMapKeys) :
    errMap code = none :=
  lookup_eq_none_of_not_mem errMapEntries code h

/-- C6. The classifier `errMap` is an injective partial map whose domain is
the known vocabulary: 12 codes of the synchronous transport and 10 of the
asynchronous one, no code in both; every known code has an error, two
different known codes have different errors, and every other string, the
empty one included, has none. `Result.UnmarshalJSON` on a fresh `Result`
stores exactly the classifier's answer. -/
theorem errMap_classification :
    errMapHttp.length = 12 ∧ errMapXmpp.length = 10 ∧ errMapKeys.length = 22 ∧
    errMapKeys.Nodup ∧
    (∀ code ∈ errMapHttp.map Prod.fst, code ∉ errMapXmpp.map Prod.fst) ∧
    (∀ code ∈ errMapKeys, ∃ e, errMap code = some e) ∧
    (∀ c1 ∈ errMapKeys, ∀ c2 ∈ errMapKeys, errMap c1 = errMap c2 → c1 = c2) ∧
    (∀ code, code ∉ errMapKeys → errMap code = none) ∧
    errMap "" = none ∧
    (∀ d : resultJSON, (Result.UnmarshalJSON {} (.ok d)).1.Error = errMap d.Error) := by
  refine ⟨rfl, rfl, rfl, by decide, by decide, ?_, by decide, errMap_eq_none_of_not_mem,
    by decide, ?_⟩
  · intro code hc
    have h : ∀ c ∈ errMapKeys, (errMap c).isSome = true := by decide
    exact Option.isSome_iff_exists.mp (h code hc)
  · intro d
    simp only [Result.UnmarshalJSON]
    cases errMap d.Error <;> rfl

/-- C5, counterexample. No set of six errors is the set on which
`Result.Unregistered` is true: the method is true on seven different errors. -/
theorem Unregistered_not_six :
    ¬ ∃ s : Finset GoError, s.card = 6 ∧
      ∀ e : GoError, (Result.Unregistered { Error := some e } = true ↔ e ∈ s) := by
  rintro ⟨s, hcard, hs⟩
  have hsub : ({ErrNotRegistered, ErrMismatchSenderID, ErrMissingRegistration,
      ErrInvalidRegistration, ErrorBadRegistration, ErrorDeviceUnRegistered,
      ErrorSenderIdMismatch} : Finset GoError) ⊆ s := by
    intro e he
    apply (hs e).mp
    simp only [Finset.mem_insert, Finset.mem_singleton] at he
    rcases he with h | h | h | h | h | h | h <;> subst h <;> decide
  have h7 : ({ErrNotRegistered, ErrMismatchSenderID, ErrMissingRegistration,
      ErrInvalidRegistration, ErrorBadRegistration, ErrorDeviceUnRegistered,
      ErrorSenderIdMismatch} : Finset GoError).card = 7 := by decide
  have := Finset.card_le_card hsub
  omega

/-- C5, amended. `Result.Unregistered` is true exactly when the error of the
result is the one that `errMap` assigns to one of the seven codes
NotRegistered, MismatchSenderId, MissingRegistration, InvalidRegistration,
BAD_REGISTRATION, DEVICE_UNREGISTERED, SENDER_ID_MISMATCH; these seven errors
are pairwise different, and the method is false for every other error and for
a result without error. -/
theorem Unregistered_iff_seven :
    (∀ r : Result, r.Unregistered = true ↔
      ∃ code ∈ unregisteredCodes, ∃ e, errMap code = some e ∧ r.Error = some e) ∧
    unregisteredCodes.length = 7 ∧
    (unregisteredCodes.map errMap).Nodup ∧
    (∀ code ∈ unregisteredCodes, errMap code ≠ none) ∧
    (∀ r : Result, r.Error = none → r.Unregistered = false) := by
  refine ⟨?_, rfl, by decide, by decide, ?_⟩
  · intro r
    rcases r with ⟨mid, rid, err⟩
    cases err with
    | none => simp [Result.Unregistered]
    | some e =>
      simp only [Result.Unregistered, decide_eq_true_eq, unregisteredCodes, List.mem_cons,
        List.mem_nil_iff, or_false, Option.some.injEq, exists_eq_or_imp, exists_eq_left]
      have h1 : errMap "NotRegistered" = some ErrNotRegistered := by decide
      have h2 : errMap "MismatchSenderId" = some ErrMismatchSenderID := by decide
      have h3 : errMap "MissingRegistration" = some ErrMissingRegistration := by decide
      have h4 : errMap "InvalidRegistration" = some ErrInvalidRegistration := by decide
      have h5 : errMap "BAD_REGISTRATION" = some ErrorBadRegistration := by decide
      have h6 : errMap "DEVICE_UNREGISTERED" = some ErrorDeviceUnRegistered := by decide
      have h7 : errMap "SENDER_ID_MISMATCH" = some ErrorSenderIdMismatch := by decide
      simp only [h1, h2, h3, h4, h5, h6, h7, Option.some.injEq, exists_eq_left']
  · intro r h
    simp [Result.Unregistered, h]

/-- C7, counterexample. Not every rate-exceeded or service-unavailable code is
classified to a retryable error: the error of DeviceMessageRateExceeded is a
plain `errors.New` value, which is no `net.Error`. -/
theorem rate_exceeded_not_retryable :
    ¬ ∀ code ∈ rateExceededCodes ++ serviceUnavailableCodes,
      ∃ e, errMap code = some e ∧ e.retryable = true := by
  intro h
  obtain ⟨e, he, hr⟩ := h "DeviceMessageRateExceeded" (by decide)
  have h1 : errMap "DeviceMessageRateExceeded" = some ErrDeviceMessageRateExceeded := by decide
  rw [h1] at he
  cases he
  exact absurd hr (by decide)

/-- C7, amended. Under the check that `retry` applies, the error that
`errMap` assigns to Unavailable is retryable, the errors it assigns to the
four rate-exceeded codes are not, and the errors it assigns to the
invalid-registration and mismatched-sender codes are not. -/
theorem classified_retryability :
    (∃ e, errMap "Unavailable" = some e ∧ e.retryable = true) ∧
    (∀ code ∈ rateExceededCodes, ∃ e, errMap code = some e ∧ e.retryable = false) ∧
    (∀ code ∈ permanentCodes, ∃ e, errMap code = some e ∧ e.retryable = false) := by
  have key : ∀ (l : List String) (b : Bool),
      (l.all fun c => (errMap c).any fun e => e.retryable == b) = true →
      ∀ code ∈ l, ∃ e, errMap code = some e ∧ e.retryable = b := by
    intro l b hl code hc
    have h := List.all_eq_true.mp hl code hc
    cases hm : errMap code with
    | none => rw [hm] at h; simp at h
    | some e =>
      rw [hm] at h
      exact ⟨e, rfl, by simpa using h⟩
  refine ⟨?_, key rateExceededCodes false (by decide), key permanentCodes false (by decide)⟩
  exact key ["Unavailable"] true (by decide) "Unavailable" (by decide)

/-- The synchronous transport validates first: a message that `Validate`
rejects makes `Send` and `SendWithRetry` return that error with the network
state untouched. -/
theorem http_validate_first {σ : Type} (c : HttpClient) (w : HttpWorld σ)
    (msg : Option Message) (attempts : Int) (st : σ) (e : GoError)
    (h : Message.Validate msg = some e) :
    c.Send w msg st = ((none, some e), st) ∧
    c.SendWithRetry w msg attempts st = ((none, some e), st) := by
  simp [HttpClient.Send, HttpClient.SendWithRetry, h]

/-- C2, evaluation at the failing input. `Validate` rejects a message without
target, yet `AsyncSend` returns nil for it and queues a send command, `Send`
queues a send command as well, and when its timer fires it returns a 503
response with a nil error. -/
theorem xmpp_send_skips_validation :
    Message.Validate (some msgNoTarget) = some ErrInvalidTarget ∧
    (freshClient.AsyncSend (some msgNoTarget) 7).1 = none ∧
    (freshClient.AsyncSend (some msgNoTarget) 7).2.cmds =
      [{ t := cmdTypeSend, d := some { ret := 7, msg := some msgNoTarget } }] ∧
    (freshClient.SendEnqueue (some msgNoTarget) 7).cmds =
      [{ t := cmdTypeSend, d := some { ret := 7, msg := some msgNoTarget } }] ∧
    ((freshClient.Send (some msgNoTarget) [] 7 id .timeout).map fun r => r.1) =
      some ({ StatusCode := 503
              Results := [{ MessageID := "m2", RegistrationID := "",
                            Error := some ErrorServiceUnavaliable }] }, none) ∧
    ((freshClient.Send (some msgNoTarget) [] 7 id .timeout).map fun r => r.2.cmds) =
      some [{ t := cmdTypeSend, d := some { ret := 7, msg := some msgNoTarget } }] := by
  refine ⟨by decide, rfl, rfl, rfl, rfl, rfl⟩

/-- C9. For every client, non-nil message and timeout argument: when the
timer of `Send` fires before a response arrives, `Send` returns a nil error
and a response with status 503 and exactly one result, which carries the
identifier of the message and the service-unavailable error; when it returns,
the pending map has no entry for that identifier and every entry under
another identifier is as it was just before, as are queue and connection.
This holds for the `select` on any client state and for the whole call,
whatever other goroutines did to the client while the call waited. -/
theorem Send_timeout (c : XmppClient) (m : Message) (timeout : List Nat) (ret : Nat)
    (meanwhile : XmppClient → XmppClient) :
    (∃ c1 : XmppClient,
      c.SendSelect (some m) timeout .timeout =
        some (({ StatusCode := 503
                 Results := [{ MessageID := m.MessageId, RegistrationID := m.To,
                               Error := some ErrorServiceUnavaliable }] }, none), c1) ∧
      c1.retInfo m.MessageId = none ∧
      (∀ k, k ≠ m.MessageId → c1.retInfo k = c.retInfo k) ∧
      c1.cmds = c.cmds ∧ c1.client = c.client) ∧
    (∃ c1 : XmppClient,
      c.Send (some m) timeout ret meanwhile .timeout =
        some (({ StatusCode := 503
                 Results := [{ MessageID := m.MessageId, RegistrationID := m.To,
                               Error := some ErrorServiceUnavaliable }] }, none), c1) ∧
      c1.retInfo m.MessageId = none ∧
      (∀ k, k ≠ m.MessageId →
        c1.retInfo k = (meanwhile (c.SendEnqueue (some m) ret)).retInfo k) ∧
      c1.cmds = (meanwhile (c.SendEnqueue (some m) ret)).cmds ∧
      c1.client = (meanwhile (c.SendEnqueue (some m) ret)).client) := by
  constructor
  · refine ⟨_, rfl, ?_, ?_, rfl, rfl⟩
    · simp
    · intro k hk
      simp [hk]
  · refine ⟨_, rfl, ?_, ?_, rfl, rfl⟩
    · simp
    · intro k hk
      simp [hk]

/-- A send command whose write succeeds leaves the pending map as it was: the
method `send` registers the waiter only in the branch `err != nil`. -/
theorem send_ok_registers_nothing (c : XmppClient) (w : XmppWorld) (si : sendInfo)
    (frame : String)
    (hframe : frame = "<message id=\"\">\n\t\t\t<gcm xmlns=\"google:mobile:data\">\n\t\t\t\t" ++
      w.marshal si.msg ++ "\n\t\t\t</gcm>\n\t\t</message>")
    (hok : w.sendOrg c.client frame = none) :
    c.send w si = some (c, none) := by
  subst hframe
  simp only [XmppClient.send, hok]

/-- C8, evaluation at the failing input. `Send` queues the command for the
message "m1" and waits on channel 7; the loop processes the command and the
write succeeds, which leaves the pending map without an entry for "m1"; the
loop then reads the ack for "m1" without error and, although the caller is
receiving on channel 7, builds the response with status 200 and delivers it
to nobody; the only way left for `Send` to return is its timer, with status
503 and the service-unavailable error. -/
theorem ack_after_successful_write_is_dropped :
    ackC1.cmds = [{ t := cmdTypeSend, d := some { ret := 7, msg := some msgM1 } }] ∧
    worldAck.sendOrg ackC1.client
      ("<message id=\"\">\n\t\t\t<gcm xmlns=\"google:mobile:data\">\n\t\t\t\t" ++
        worldAck.marshal (some msgM1) ++ "\n\t\t\t</gcm>\n\t\t</message>") = none ∧
    (ackC1.runOnce worldAck).completed = true ∧
    ackC2.cmds = [] ∧
    ackC2.retInfo "m1" = none ∧
    (worldAck.recv ackC2.client).1 = .Chat ["ack-m1"] ∧
    worldAck.unmarshal "ack-m1" =
      { MessageType := "ack", MessageId := "m1", Form := "device-token", Error := "" } ∧
    worldAck.receiving 7 = true ∧
    (ackC2.runOnce worldAck).completed = true ∧
    (ackC2.runOnce worldAck).delivered = none ∧
    (((ackC2.runOnce worldAck).client.SendSelect (some msgM1) [] .timeout).map fun r => r.1) =
      some ({ StatusCode := 503
              Results := [{ MessageID := "m1", RegistrationID := "device-token",
                            Error := some ErrorServiceUnavaliable }] }, none) := by
  refine ⟨rfl, rfl, rfl, rfl, rfl, rfl, rfl, rfl, rfl, rfl, rfl⟩

/-- The classifier answers with the connection-draining error for the code
CONNECTION_DRAINING and for no other string. -/
theorem errMap_eq_draining_iff (code : String) :
    errMap code = some ErrorConnectionDraining ↔ code = "CONNECTION_DRAINING" := by
  constructor
  · intro h
    by_cases hmem : code ∈ errMapKeys
    · have hall : ∀ c ∈ errMapKeys, errMap c = some ErrorConnectionDraining →
          c = "CONNECTION_DRAINING" := by decide
      exact hall code hmem h
    · rw [errMap_eq_none_of_not_mem code hmem] at h
      cases h
  · intro h
    subst h
    decide

/-- C10, evaluation at the failing input. `AsyncSend` queues a command for
"m1" with a channel on which nobody receives; the write fails, so the loop
records the entry in the pending map (the branch `err != nil` of `send`); the
loop then reads a chat stanza with identifier "m1" and error code
CONNECTION_DRAINING and gets stuck sending the response on that channel: the
pass never completes and no reconnect command is scheduled. -/
theorem draining_ack_blocks_loop :
    drainC1.cmds = [{ t := cmdTypeSend, d := some { ret := 7, msg := some msgM1 } }] ∧
    (drainC1.runOnce worldDrain).completed = true ∧
    drainC2.cmds = [] ∧
    drainC2.retInfo "m1" = some { ret := 7, msg := some msgM1 } ∧
    (worldDrain.recv drainC2.client).1 = .Chat ["draining"] ∧
    (worldDrain.unmarshal "draining").Error = "CONNECTION_DRAINING" ∧
    (drainC2.runOnce worldDrain).isBlocked = true ∧
    (drainC2.runOnce worldDrain).completed = false ∧
    (drainC2.runOnce worldDrain).spawned = [] := by
  refine ⟨rfl, rfl, rfl, rfl, rfl, rfl, rfl, rfl, rfl⟩

/-- The passes of the loop that do not stall in the delivery. When the loop,
with nothing queued, reads a chat stanza whose first payload carries the error
code `e`, and the pending map has no entry for the stanza's identifier or
somebody receives on that entry's channel, the pass completes, changes neither
queue, pending map nor connection, and schedules a reconnect command exactly
when `e` is CONNECTION_DRAINING (otherwise it schedules nothing). Sending a scheduled
command on the queue of any client `q` appends it behind everything queued and
changes nothing else. When the loop takes a reconnect command from the head of
the queue and connecting succeeds, the connection is replaced, the commands
queued behind it stay as they are and the pending map is unchanged. -/
theorem reconnect_on_draining (c q c2 : XmppClient) (w w2 : XmppWorld) (payload : String)
    (rest : List String) (later : List cmd) (conn : Nat)
    (hidle : c.cmds = [])
    (hchat : (w.recv c.client).1 = .Chat (payload :: rest))
    (hrecv : ∀ si, c.retInfo (w.unmarshal payload).MessageId = some si →
      w.receiving si.ret = true)
    (hq : c2.cmds = { t := cmdTypeRenew } :: later)
    (hconn : w2.newClient (if c2.debug then testingEndpoint else productionEndpoint)
      c2.user c2.passwd c2.debug = .ok conn) :
    ((c.runOnce w).completed = true ∧
      ((c.runOnce w).spawned = [{ t := cmdTypeRenew }] ↔
        (w.unmarshal payload).Error = "CONNECTION_DRAINING") ∧
      ((c.runOnce w).spawned = [] ↔ (w.unmarshal payload).Error ≠ "CONNECTION_DRAINING") ∧
      (c.runOnce w).client.cmds = c.cmds ∧
      (c.runOnce w).client.retInfo = c.retInfo ∧
      (c.runOnce w).client.client = c.client) ∧
    ((q.enqueue { t := cmdTypeRenew }).cmds = q.cmds ++ [{ t := cmdTypeRenew }] ∧
      (q.enqueue { t := cmdTypeRenew }).retInfo = q.retInfo ∧
      (q.enqueue { t := cmdTypeRenew }).client = q.client) ∧
    ((c2.runOnce w2).completed = true ∧
      (c2.runOnce w2).client.client = conn ∧
      (c2.runOnce w2).client.cmds = later ∧
      (c2.runOnce w2).client.retInfo = c2.retInfo ∧
      (c2.runOnce w2).delivered = none ∧
      (c2.runOnce w2).spawned = []) := by
  refine ⟨?_, ⟨rfl, rfl, rfl⟩, ?_⟩
  · have hrun : c.runOnce w = c.onStanza w (.Chat (payload :: rest)) := by
      simp only [XmppClient.runOnce, hidle, hchat]
    rw [hrun]
    by_cases hd : (w.unmarshal payload).Error = "CONNECTION_DRAINING"
    · have hm : errMap "CONNECTION_DRAINING" = some ErrorConnectionDraining := by decide
      cases hp : c.retInfo (w.unmarshal payload).MessageId with
      | none =>
        simp [XmppClient.onStanza, hp, hm, hd, LoopStep.completed, LoopStep.spawned,
          LoopStep.client]
      | some si =>
        have hr := hrecv si hp
        simp [XmppClient.onStanza, hp, hm, hd, hr, LoopStep.completed, LoopStep.spawned,
          LoopStep.client]
    · have hm : ¬ errMap (w.unmarshal payload).Error = some ErrorConnectionDraining :=
        fun h => hd ((errMap_eq_draining_iff _).mp h)
      cases hp : c.retInfo (w.unmarshal payload).MessageId with
      | none =>
        simp [XmppClient.onStanza, hp, hm, hd, LoopStep.completed, LoopStep.spawned,
          LoopStep.client]
      | some si =>
        have hr := hrecv si hp
        simp [XmppClient.onStanza, hp, hm, hd, hr, LoopStep.completed, LoopStep.spawned,
          LoopStep.client]
  · have hrun : c2.runOnce w2 = .next { c2 with cmds := later, client := conn } none [] := by
      simp [XmppClient.runOnce, hq, cmdTypeRenew, cmdTypeSend, XmppClient.renewConn, hconn]
    rw [hrun]
    exact ⟨rfl, rfl, rfl, rfl, rfl, rfl⟩

/-- A pass that does not stall: a draining notice for an identifier nobody
waits for schedules one reconnect command; processing a queued reconnect command
replaces connection 1 by connection 2 and keeps the send command queued
behind it. -/
theorem reconnect_on_draining_witness :
    freshClient.cmds = [] ∧
    (worldReconnect.recv freshClient.client).1 = .Chat ["draining"] ∧
    (freshClient.runOnce worldReconnect).spawned = [{ t := cmdTypeRenew }] ∧
    (queuedClient.runOnce worldReconnect).client.client = 2 ∧
    (queuedClient.runOnce worldReconnect).client.cmds =
      [{ t := cmdTypeSend, d := some { ret := 9, msg := some msgM1 } }] := by
  have h := reconnect_on_draining freshClient freshClient queuedClient worldReconnect
    worldReconnect "draining" []
    [{ t := cmdTypeSend, d := some { ret := 9, msg := some msgM1 } }] 2
    rfl rfl (fun si hsi => by cases hsi) rfl rfl
  exact ⟨rfl, rfl, h.1.2.1.mpr rfl, h.2.2.2.1, h.2.2.2.2.1⟩

/-- The sample client `freshClient` is what the constructor returns. -/
theorem freshClient_constructed :
    NewXmppClient worldConnect "sender@gcm.googleapis.com" "key" false = .ok freshClient :=
  rfl

end Fcm
